import Mathlib

/-!
Shallow embedding of the multi-stream CCTV ingestion and distribution engine
(`local_app/simple_service.py`, `packages/local_app/enhanced_main.py`,
`local_app/main.py`, `local_app/ai_processor.py`).

Python dictionaries are modelled as insertion-ordered association lists,
Python sets of stream ids as lists of keys, decoded frames as lists of
natural numbers (pixel data), and numpy array objects as addresses into an
explicit heap (a list of frame payloads), so that `.copy()` — which
allocates a fresh array with equal contents — is observable.  External
collaborators (cv2.VideoCapture open results, trial-read results, JPEG
encoders, websocket connectivity) enter as explicit boolean or functional
parameters; wall-clock sleeps and timestamps have no functional effect on
the properties below and are elided.
-/

/-- Lookup in a Python-dict-like association list. -/
def lookupA {α : Type} : List (String × α) → String → Option α
  | [], _ => none
  | (k, v) :: t, k0 => if k = k0 then some v else lookupA t k0

/-- Python dict assignment `d[k] = v`: overwrite in place, else append. -/
def insertA {α : Type} : List (String × α) → String → α → List (String × α)
  | [], k0, v0 => [(k0, v0)]
  | (k, v) :: t, k0, v0 =>
      if k = k0 then (k0, v0) :: t else (k, v) :: insertA t k0 v0

/-- Python dict deletion `del d[k]`. -/
def eraseA {α : Type} : List (String × α) → String → List (String × α)
  | [], _ => []
  | (k, v) :: t, k0 => if k = k0 then eraseA t k0 else (k, v) :: eraseA t k0

/-- Python membership test `k in d`. -/
def hasK {α : Type} (l : List (String × α)) (k : String) : Bool :=
  (lookupA l k).isSome

/-- Key list membership/insertion for dicts whose values are opaque objects
(thread handles, lock objects): `d[k] = Lock()` keyed presence only. -/
def insertK (l : List String) (k : String) : List String :=
  if k ∈ l then l else l ++ [k]

/-! ## DistributionQueue (claim C2)

`simple_service.py` line 81: `queue.Queue(maxsize=2)`; lines 268-292: the
producer first does `get_nowait()` when `full()`, then `put_nowait(...)`
(a raised `queue.Full` is swallowed, dropping the frame).  Encoded JPEG
byte buffers are modelled as `List Nat`. -/

/-- Encoded JPEG frame bytes. -/
abbrev ByteBuf := List Nat

/-- Capacity passed to `queue.Queue(maxsize=2)` in `add_stream`. -/
def frame_queue_maxsize : Nat := 2

/-- Producer-side push from `_process_stream`: drop the oldest entry when
the queue is full, then `put_nowait`; a still-full queue drops the new
frame (the `except queue.Full: pass` branch). -/
def frame_queue_push (q : List ByteBuf) (b : ByteBuf) : List ByteBuf :=
  let q1 := if frame_queue_maxsize ≤ q.length then q.drop 1 else q
  if q1.length < frame_queue_maxsize then q1 ++ [b] else q1

/-- Consumer-side pop (`Queue.get`): head of the queue when nonempty,
otherwise a timeout signal (`none`). -/
def frame_queue_pop (q : List ByteBuf) : Option ByteBuf × List ByteBuf :=
  match q with
  | [] => (none, [])
  | b :: t => (some b, t)

/-- An interaction with one stream's distribution queue. -/
inductive QOp : Type
  | push : ByteBuf → QOp
  | pop : QOp

/-- Run a sequence of queue operations starting from the freshly created
empty queue of `add_stream`. -/
def run_queue_ops (ops : List QOp) : List ByteBuf :=
  List.foldl
    (fun q op =>
      match op with
      | QOp.push b => frame_queue_push q b
      | QOp.pop => (frame_queue_pop q).2)
    [] ops

/-! ## Per-stream JPEG quality (claim C10)

`local_app/main.py` lines 24-38: `StreamProcessor` with `streams` and
`stream_qualities`; `set_stream_quality` clamps with
`max(1, min(100, quality))`. -/

/-- State of the quality-setting `StreamProcessor` in `local_app/main.py`.
The values stored in `streams` are opaque dicts, modelled by their keys. -/
structure QualityProc : Type where
  streams : List String
  stream_qualities : List (String × Int)
deriving DecidableEq

/-- Translation of `StreamProcessor.set_stream_quality`. -/
def set_stream_quality (p : QualityProc) (stream_id : String) (quality : Int) :
    Bool × QualityProc :=
  if stream_id ∈ p.streams then
    let quality := max 1 (min 100 quality)
    (true, { p with stream_qualities := insertA p.stream_qualities stream_id quality })
  else
    (false, p)

/-! ## Frame downscaling before encode (claim C9)

`simple_service.py` lines 277-282 resize when `frame.shape[1] > 1280`
(`shape[1]` is the WIDTH); `ai_processor.py` lines 56-68 resize when
`max(height, width) > 1280`.  The Python `int(x * scale)` with a float
scale is modelled by natural floor division. -/

/-- Resize applied by `_process_stream` just before JPEG encode: triggers
on width alone, producing width 1280 and height `int(h * 1280 / w)`.
Returns (width, height). -/
def resize_for_queue (w h : Nat) : Nat × Nat :=
  if 1280 < w then (1280, h * 1280 / w) else (w, h)

/-- Resize applied by `AIProcessor.preprocess_frame`: triggers on the long
edge `max(height, width)` and scales both dimensions by `1280 / long`. -/
def preprocess_frame (w h : Nat) : Nat × Nat :=
  if 1280 < max h w then
    (w * 1280 / max h w, h * 1280 / max h w)
  else (w, h)

/-! ## Heap of numpy frame arrays

Decoded frames are numpy arrays: mutable objects.  To make `.copy()`
observable we store frame payloads in a heap (a list indexed by address);
`.copy()` allocates a fresh address carrying equal contents, and an
in-place mutation overwrites the payload at one address. -/

/-- Pixel payload of one decoded frame. -/
abbrev FrameData := List Nat

/-- Heap of live numpy arrays; an address is an index into the list. -/
abbrev Heap := List FrameData

/-- Dereference an address. -/
def heap_read (h : Heap) (a : Nat) : Option FrameData := h.get? a

/-- Allocate a fresh array holding `d` (used for `frame.copy()`). -/
def heap_alloc (h : Heap) (d : FrameData) : Nat × Heap := (h.length, h ++ [d])

/-- Mutate the array at address `a` in place. -/
def heap_write (h : Heap) (a : Nat) (d : FrameData) : Heap := h.set a d

/-! ## OptimizedStreamProcessor state (`local_app/simple_service.py`)

One field per mutable dict of `OptimizedStreamProcessor.__init__` that the
verified operations touch.  `cv2.VideoCapture` objects are opaque handles
(`Nat`), drawn from `next_handle`; `released` records handles on which
`.release()` has been called.  Lock and thread objects are modelled by key
presence.  Wall-clock fields (`last_fps_time`) and the constants `running`,
`max_fps = 30`, `max_consecutive_failures = 30` play no role in the claims
below and are elided. -/

structure Proc : Type where
  streams : List (String × Nat) := []
  stream_urls : List (String × String) := []
  latest_frames : List (String × Nat) := []
  frame_locks : List String := []
  processing_threads : List String := []
  frame_queues : List (String × List ByteBuf) := []
  active_connections : List (String × List Nat) := []
  fps_counters : List (String × Nat) := []
  consecutive_failures : List (String × Nat) := []
  jpeg_quality : Int := 40
  released : List Nat := []
  next_handle : Nat := 0
deriving DecidableEq

/-- The freshly constructed processor (`OptimizedStreamProcessor()`). -/
def init_proc : Proc := {}

/-- Translation of `OptimizedStreamProcessor.add_stream` (lines 67-132).
`openOk` is the result of `cap.isOpened()` on the newly created capture.
An already-present id returns `True` immediately; otherwise the URL, lock,
queue and consumer set are installed BEFORE the capture is opened, and an
open failure returns `False` without removing them. -/
def add_stream (p : Proc) (stream_id rtsp_url : String) (openOk : Bool) :
    Bool × Proc :=
  if hasK p.streams stream_id then (true, p)
  else
    let p1 : Proc :=
      { p with
        stream_urls := insertA p.stream_urls stream_id rtsp_url
        frame_locks := insertK p.frame_locks stream_id
        frame_queues := insertA p.frame_queues stream_id []
        active_connections := insertA p.active_connections stream_id [] }
    let cap := p1.next_handle
    let p2 : Proc := { p1 with next_handle := cap + 1 }
    if !openOk then (false, p2)
    else
      (true,
        { p2 with
          streams := insertA p2.streams stream_id cap
          fps_counters := insertA p2.fps_counters stream_id 0
          consecutive_failures := insertA p2.consecutive_failures stream_id 0
          processing_threads := insertK p2.processing_threads stream_id })

/-- Translation of `OptimizedStreamProcessor.remove_stream` (lines 134-167):
release and delete the capture when present, then delete every other
per-stream entry guarded by its own `in` check; always returns `True`
(the `except` branch is unreachable in this model).  Note the code does
NOT delete `fps_counters` or `consecutive_failures`. -/
def remove_stream (p : Proc) (stream_id : String) : Bool × Proc :=
  let p1 : Proc :=
    match lookupA p.streams stream_id with
    | some cap =>
        { p with
          streams := eraseA p.streams stream_id
          released := cap :: p.released }
    | none => p
  (true,
    { p1 with
      latest_frames := eraseA p1.latest_frames stream_id
      frame_locks := p1.frame_locks.filter (fun k => k ≠ stream_id)
      processing_threads := p1.processing_threads.filter (fun k => k ≠ stream_id)
      stream_urls := eraseA p1.stream_urls stream_id
      frame_queues := eraseA p1.frame_queues stream_id
      active_connections := eraseA p1.active_connections stream_id })

/-- Translation of `OptimizedStreamProcessor._reconnect_stream`
(lines 169-206).  `openOk` is `cap.isOpened()` for the reopened capture;
`readOk` is what a trial `cap.read()` on it would return — the parameter
is UNUSED because this variant performs no trial read.  The old capture is
released and deleted first; on open failure the function returns `False`
with the stream absent from `streams`. -/
def reconnect_stream (p : Proc) (stream_id : String) (openOk readOk : Bool) :
    Bool × Proc :=
  match lookupA p.stream_urls stream_id with
  | none => (false, p)
  | some _ =>
    let p1 : Proc :=
      match lookupA p.streams stream_id with
      | some oldCap =>
          { p with
            streams := eraseA p.streams stream_id
            released := oldCap :: p.released }
      | none => p
    let cap := p1.next_handle
    let p2 : Proc := { p1 with next_handle := cap + 1 }
    if !openOk then (false, p2)
    else
      (true,
        { p2 with
          streams := insertA p2.streams stream_id cap
          consecutive_failures := insertA p2.consecutive_failures stream_id 0 })

/-! ## EnhancedStreamProcessor (`packages/local_app/enhanced_main.py`)

Only the footprint of `_reconnect_stream` (lines 157-208) is modelled:
`streams`, `stream_urls` and capture handles.  The class has further
per-stream maps (`latest_detections`, counters, ...) that this function
never touches. -/

structure EnhancedProc : Type where
  streams : List (String × Nat) := []
  stream_urls : List (String × String) := []
  released : List Nat := []
  next_handle : Nat := 0
deriving DecidableEq

/-- Translation of `EnhancedStreamProcessor._reconnect_stream`
(lines 157-208): release the current capture (WITHOUT deleting its map
entry), reopen, and then TEST-READ one frame; if the trial read fails the
new capture is released and `False` returned.  Only when both succeed is
the map entry replaced. -/
def enhanced_reconnect_stream (p : EnhancedProc) (stream_id : String)
    (openOk readOk : Bool) : Bool × EnhancedProc :=
  match lookupA p.stream_urls stream_id with
  | none => (false, p)
  | some _ =>
    let p1 : EnhancedProc :=
      match lookupA p.streams stream_id with
      | some oldCap => { p with released := oldCap :: p.released }
      | none => p
    let cap := p1.next_handle
    let p2 : EnhancedProc := { p1 with next_handle := cap + 1 }
    if !openOk then (false, p2)
    else if !readOk then (false, { p2 with released := cap :: p2.released })
    else (true, { p2 with streams := insertA p2.streams stream_id cap })

/-! ## FrameCache write and read (claims C1, C6)

`_process_stream` lines 260-266: on a successful `cap.read()` the failure
counter is reset and `self.latest_frames[stream_id] = frame.copy()` runs
under `self.frame_locks[stream_id]` (a missing lock would raise `KeyError`,
modelled as `none`).  `get_latest_frame` lines 306-312 returns `None`
without a lock entry, else a `.copy()` of the cached frame, or `None` when
no frame is cached yet. -/

/-- The successful-read step of `_process_stream`: reset
`consecutive_failures[stream_id]` and publish a copy of the frame at
address `frameAddr` into `latest_frames`. -/
def process_frame_success (p : Proc) (h : Heap) (stream_id : String)
    (frameAddr : Nat) : Option (Proc × Heap) :=
  if stream_id ∈ p.frame_locks then
    match heap_read h frameAddr with
    | some d =>
        let ah := heap_alloc h d
        some
          ({ p with
             consecutive_failures := insertA p.consecutive_failures stream_id 0
             latest_frames := insertA p.latest_frames stream_id ah.1 },
           ah.2)
    | none => none
  else none

/-- Translation of `OptimizedStreamProcessor.get_latest_frame`
(lines 306-312): `None` when the id has no lock or no cached frame,
otherwise the address of a fresh defensive copy of the cached frame.
A cached address always dereferences (established by
`process_frame_success`); a dangling address is mapped to `None`. -/
def get_latest_frame (p : Proc) (h : Heap) (stream_id : String) :
    Option Nat × Heap :=
  if stream_id ∉ p.frame_locks then (none, h)
  else
    match lookupA p.latest_frames stream_id with
    | some a =>
        match heap_read h a with
        | some d =>
            let ah := heap_alloc h d
            (some ah.1, ah.2)
        | none => (none, h)
    | none => (none, h)

/-- Payload view of `get_latest_frame`: the pixel data the caller receives. -/
def get_latest_frame_data (p : Proc) (h : Heap) (stream_id : String) :
    Option FrameData :=
  match get_latest_frame p h stream_id with
  | (some a, h2) => heap_read h2 a
  | (none, _) => none

/-! ## Snapshot endpoint (claim C6)

`GET /stream/.../frame` handler `get_stream_frame` (lines 423-440):
`HTTPException(404)` when `get_latest_frame` yields `None`, else the frame
re-encoded by `cv2.imencode` at the requested quality, defaulting to
`stream_processor.jpeg_quality`.  The JPEG encoder is an external
collaborator passed as a function. -/

/-- Response of the snapshot endpoint. -/
inductive FrameResponse : Type
  | notFound404 : String → FrameResponse
  | jpegResponse : ByteBuf → FrameResponse
deriving DecidableEq

/-- Translation of the `get_stream_frame` endpoint. -/
def get_stream_frame (p : Proc) (h : Heap) (stream_id : String)
    (quality : Option Int) (imencode : FrameData → Int → ByteBuf) :
    FrameResponse :=
  match get_latest_frame_data p h stream_id with
  | none => FrameResponse.notFound404 "Stream not found or no frame available"
  | some d =>
      let q := match quality with | some q => q | none => p.jpeg_quality
      FrameResponse.jpegResponse (imencode d q)

/-! ## Push-socket delivery (claims C7, C8)

`websocket_stream` handler (lines 442-492).  Connectivity of the consumer
is an external fact, passed per iteration: a send to a disconnected
consumer raises.  Inside the loop every raise from a send lands in the
blanket `except Exception` (lines 481-483) — `WebSocketDisconnect` is an
`Exception` subclass — which sleeps and CONTINUES the loop; only the
`break` on stream removal ends the loop. -/

/-- Timeout (seconds) passed to `Queue.get` in the websocket loop
(line 473: `get(timeout=1.0)`). -/
def websocket_queue_timeout : Nat := 1

/-- `Queue.get(timeout=t)`: the head when the queue is nonempty, else a
`queue.Empty` timeout after waiting up to `t` seconds (no concurrent
producer in this sequential model). -/
def queue_get_with_timeout (q : List ByteBuf) (_timeoutSec : Nat) :
    Option ByteBuf × List ByteBuf := frame_queue_pop q

/-- Observable effect of one iteration of the websocket delivery loop. -/
inductive WsOutcome : Type
  | streamEnded : WsOutcome
  | forwarded : ByteBuf → WsOutcome
  | heartbeat : WsOutcome
  | sendFailed : WsOutcome
  | noQueueSleep : WsOutcome
deriving DecidableEq

/-- One iteration of the `while True` loop (lines 462-483).  Returns the
outcome, whether the loop terminates after this iteration, and the updated
processor state (a successful `get` dequeues even if the send then fails).
`connected` tells whether sends to the consumer succeed. -/
def ws_stream_iteration (p : Proc) (stream_id : String) (connected : Bool) :
    WsOutcome × Bool × Proc :=
  if !hasK p.streams stream_id then
    (WsOutcome.streamEnded, true, p)
  else
    match lookupA p.frame_queues stream_id with
    | some q =>
        match queue_get_with_timeout q websocket_queue_timeout with
        | (some b, q2) =>
            let p2 : Proc :=
              { p with frame_queues := insertA p.frame_queues stream_id q2 }
            if connected then (WsOutcome.forwarded b, false, p2)
            else (WsOutcome.sendFailed, false, p2)
        | (none, _) =>
            if connected then (WsOutcome.heartbeat, false, p)
            else (WsOutcome.sendFailed, false, p)
    | none => (WsOutcome.noQueueSleep, false, p)

/-- Translation of `OptimizedStreamProcessor.register_websocket`
(lines 334-338); the set is modelled as a duplicate-free list. -/
def register_websocket (p : Proc) (stream_id : String) (ws : Nat) : Proc :=
  let cur :=
    match lookupA p.active_connections stream_id with
    | some s => s
    | none => []
  let cur2 := if ws ∈ cur then cur else cur ++ [ws]
  { p with active_connections := insertA p.active_connections stream_id cur2 }

/-- Translation of `OptimizedStreamProcessor.unregister_websocket`
(lines 340-343): `discard` when the stream still has a consumer set. -/
def unregister_websocket (p : Proc) (stream_id : String) (ws : Nat) : Proc :=
  match lookupA p.active_connections stream_id with
  | some s =>
      { p with
        active_connections :=
          insertA p.active_connections stream_id (s.filter (fun w => w ≠ ws)) }
  | none => p

/-- The consumer set currently registered for a stream. -/
def consumer_set (p : Proc) (stream_id : String) : List Nat :=
  match lookupA p.active_connections stream_id with
  | some s => s
  | none => []

/-- Environment of one loop iteration: whether `remove_stream` ran
concurrently just before it, and whether the consumer is still connected. -/
structure WsTick : Type where
  removeFirst : Bool
  connected : Bool
deriving DecidableEq

/-- Run of the websocket delivery loop under an environment schedule;
`fuel` bounds the number of iterations considered. -/
def ws_loop_run : Nat → List WsTick → Proc → String → Proc
  | 0, _, p, _ => p
  | _ + 1, [], p, _ => p
  | fuel + 1, t :: ts, p, stream_id =>
      let p0 := if t.removeFirst then (remove_stream p stream_id).2 else p
      let step := ws_stream_iteration p0 stream_id t.connected
      if step.2.1 then step.2.2 else ws_loop_run fuel ts step.2.2 stream_id

/-- Translation of the whole `websocket_stream` handler (lines 442-492):
early exit with an error text when the stream does not exist (no
registration), otherwise register, run the loop (any raise inside lands in
the outer handlers), and unconditionally unregister in `finally`. -/
def websocket_stream_handler (p : Proc) (stream_id : String) (ws : Nat)
    (fuel : Nat) (ticks : List WsTick) : Proc :=
  if !hasK p.streams stream_id then p
  else
    let p1 := register_websocket p stream_id ws
    let p2 := ws_loop_run fuel ticks p1 stream_id
    unregister_websocket p2 stream_id ws

/-! ## Concrete sample states for witnesses and counterexamples -/

/-- Processor after one successful `add_stream("cam1", ...)`. -/
def cam1_proc : Proc := (add_stream init_proc "cam1" "rtsp://cam" true).2

/-- `cam1_proc` with one encoded frame sitting in the distribution queue. -/
def cam1_proc_queued : Proc :=
  { cam1_proc with
    frame_queues := insertA cam1_proc.frame_queues "cam1" [[9, 9]] }

/-- Quality processor holding the dummy stream installed at module load
(`stream_processor.streams["test_stream"] = ...`, `main.py` line 64). -/
def quality_proc0 : QualityProc :=
  { streams := ["test_stream"], stream_qualities := [] }

/-! ## Helper lemmas -/

theorem lookupA_insertA_self {α : Type} (l : List (String × α)) (k : String) (v : α) :
    lookupA (insertA l k v) k = some v := by
  induction l with
  | nil => simp [insertA, lookupA]
  | cons h t ih =>
      obtain ⟨k1, v1⟩ := h
      by_cases hk : k1 = k
      · simp [insertA, hk, lookupA]
      · simp [insertA, hk, lookupA, ih]

theorem lookupA_insertA_ne {α : Type} (l : List (String × α)) (k k0 : String) (v : α)
    (hne : k ≠ k0) : lookupA (insertA l k v) k0 = lookupA l k0 := by
  induction l with
  | nil => simp [insertA, lookupA, hne]
  | cons h t ih =>
      obtain ⟨k1, v1⟩ := h
      by_cases hk : k1 = k
      · subst hk
        simp [insertA, lookupA, hne, ih]
      · simp [insertA, hk, lookupA, ih]

theorem lookupA_eraseA_self {α : Type} (l : List (String × α)) (k : String) :
    lookupA (eraseA l k) k = none := by
  induction l with
  | nil => simp [eraseA, lookupA]
  | cons h t ih =>
      obtain ⟨k1, v1⟩ := h
      by_cases hk : k1 = k
      · simp [eraseA, hk, ih]
      · simp [eraseA, hk, lookupA, ih]

theorem hasK_eraseA_self {α : Type} (l : List (String × α)) (k : String) :
    hasK (eraseA l k) k = false := by
  simp [hasK, lookupA_eraseA_self]

theorem eraseA_of_lookupA_none {α : Type} (l : List (String × α)) (k : String)
    (h : lookupA l k = none) : eraseA l k = l := by
  induction l with
  | nil => simp [eraseA]
  | cons hd t ih =>
      obtain ⟨k1, v1⟩ := hd
      by_cases hk : k1 = k
      · simp [lookupA, hk] at h
      · simp only [lookupA, hk, if_false] at h
        simp [eraseA, hk, ih h]

theorem filter_ne_of_not_mem (l : List String) (k : String) (h : k ∉ l) :
    l.filter (fun x => x ≠ k) = l := by
  induction l with
  | nil => simp
  | cons x t ih =>
      simp only [List.mem_cons, not_or] at h
      have hx : x ≠ k := fun he => h.1 he.symm
      simp [List.filter, hx]
      exact fun a ha he => h.2 (he ▸ ha)

theorem not_mem_filter_ne_self (l : List String) (k : String) :
    k ∉ l.filter (fun x => x ≠ k) := by
  intro hmem
  have := List.of_mem_filter hmem
  simp at this

theorem mem_insertK_self (l : List String) (k : String) : k ∈ insertK l k := by
  by_cases h : k ∈ l
  · simp [insertK, h]
  · simp [insertK, h]

theorem frame_queue_push_length_le (q : List ByteBuf) (b : ByteBuf)
    (h : q.length ≤ 2) : (frame_queue_push q b).length ≤ 2 := by
  simp only [frame_queue_push, frame_queue_maxsize]
  split
  · split
    · simp only [List.length_append, List.length_drop, List.length_cons,
        List.length_nil]
      omega
    · simp only [List.length_drop]
      omega
  · split
    · simp only [List.length_append, List.length_cons, List.length_nil]
      omega
    · omega

theorem run_queue_ops_aux (ops : List QOp) (q : List ByteBuf) (h : q.length ≤ 2) :
    (List.foldl
      (fun q op =>
        match op with
        | QOp.push b => frame_queue_push q b
        | QOp.pop => (frame_queue_pop q).2)
      q ops).length ≤ 2 := by
  induction ops generalizing q with
  | nil => simpa using h
  | cons op t ih =>
      cases op with
      | push b =>
          simpa using ih (frame_queue_push q b) (frame_queue_push_length_le q b h)
      | pop =>
          apply ih
          cases q with
          | nil => simp [frame_queue_pop]
          | cons x xs =>
              simp only [frame_queue_pop]
              simp at h
              omega

theorem heap_read_alloc_self (h : Heap) (d : FrameData) :
    heap_read (heap_alloc h d).2 (heap_alloc h d).1 = some d := by
  simp only [heap_read, heap_alloc]
  induction h with
  | nil => simp
  | cons x t ih => simp [ih]

theorem heap_read_alloc_old (h : Heap) (d : FrameData) (a : Nat) (ha : a < h.length) :
    heap_read (heap_alloc h d).2 a = heap_read h a := by
  simp only [heap_read, heap_alloc]
  induction h generalizing a with
  | nil => simp at ha
  | cons x t ih =>
      cases a with
      | zero => simp
      | succ a =>
          simp only [List.cons_append, List.get?]
          exact ih a (by simpa using ha)

theorem heap_read_write_ne (h : Heap) (a b : Nat) (d : FrameData) (hne : a ≠ b) :
    heap_read (heap_write h a d) b = heap_read h b := by
  simp only [heap_read, heap_write]
  induction h generalizing a b with
  | nil => simp
  | cons x t ih =>
      cases a with
      | zero =>
          cases b with
          | zero => exact absurd rfl hne
          | succ b => simp [List.set]
      | succ a =>
          cases b with
          | zero => simp [List.set]
          | succ b =>
              simp only [List.set, List.get?]
              exact ih a b (fun he => hne (by omega))

theorem heap_read_append_self (h : Heap) (d : FrameData) :
    heap_read (h ++ [d]) h.length = some d :=
  heap_read_alloc_self h d

theorem heap_read_append_old (h : Heap) (d : FrameData) (a : Nat)
    (ha : a < h.length) : heap_read (h ++ [d]) a = heap_read h a :=
  heap_read_alloc_old h d a ha

theorem ws_not_mem_unregister (p : Proc) (stream_id : String) (ws : Nat) :
    ws ∉ consumer_set (unregister_websocket p stream_id ws) stream_id := by
  simp only [unregister_websocket, consumer_set]
  cases hl : lookupA p.active_connections stream_id with
  | none => simp [hl]
  | some s =>
      simp only [lookupA_insertA_self]
      intro hmem
      have := List.of_mem_filter hmem
      simp at this

/-! ## Claim theorems -/

/-- C2: the per-stream distribution queue has capacity 2 and the producer
push never blocks: every state reachable from the empty queue holds at
most 2 encoded frames, a push on a queue of at most 2 entries leaves at
most 2, and pushing a 3rd item onto a full queue evicts exactly the
oldest, so the two subsequent pops yield items 2 and 3 in arrival order,
never item 1. -/
theorem distribution_queue_drop_oldest :
    (∀ ops : List QOp, (run_queue_ops ops).length ≤ 2) ∧
    (∀ (q : List ByteBuf) (b : ByteBuf),
      q.length ≤ 2 → (frame_queue_push q b).length ≤ 2) ∧
    (∀ b1 b2 b3 : ByteBuf,
      frame_queue_push [b1, b2] b3 = [b2, b3] ∧
      (frame_queue_pop (frame_queue_push [b1, b2] b3)).1 = some b2 ∧
      (frame_queue_pop
        (frame_queue_pop (frame_queue_push [b1, b2] b3)).2).1 = some b3) := by
  refine ⟨fun ops => run_queue_ops_aux ops [] (by simp), frame_queue_push_length_le, ?_⟩
  intro b1 b2 b3
  refine ⟨rfl, rfl, rfl⟩

/-- Witness for `distribution_queue_drop_oldest`: the bounded-length
conjunct applied at a concrete full queue. -/
theorem distribution_queue_drop_oldest_witness :
    ([[1], [2]] : List ByteBuf).length ≤ 2 ∧
    (frame_queue_push [[1], [2]] [3]).length ≤ 2 :=
  ⟨by decide, distribution_queue_drop_oldest.2.1 [[1], [2]] [3] (by decide)⟩

/-- C10: for a stream present in the registry, `set_stream_quality` stores
exactly the clamped value max(1, min(100, quality)) and returns true, so
every stored quality lies in 1..100; for an absent stream it returns false
and changes nothing. -/
theorem set_stream_quality_clamps (p : QualityProc) (stream_id : String)
    (quality : Int) :
    (stream_id ∈ p.streams →
      (set_stream_quality p stream_id quality).1 = true ∧
      lookupA (set_stream_quality p stream_id quality).2.stream_qualities
        stream_id = some (max 1 (min 100 quality)) ∧
      (1 : Int) ≤ max 1 (min 100 quality) ∧ max 1 (min 100 quality) ≤ 100) ∧
    (stream_id ∉ p.streams →
      set_stream_quality p stream_id quality = (false, p)) := by
  constructor
  · intro hmem
    refine ⟨?_, ?_, le_max_left 1 _, max_le (by norm_num) (min_le_left 100 quality)⟩
    · simp [set_stream_quality, hmem]
    · simp [set_stream_quality, hmem, lookupA_insertA_self]
  · intro hmem
    simp [set_stream_quality, hmem]

/-- Witness for `set_stream_quality_clamps`: the dummy stream
`test_stream` with the out-of-range request 150, and an absent stream. -/
theorem set_stream_quality_clamps_witness :
    ((set_stream_quality quality_proc0 "test_stream" 150).1 = true ∧
      lookupA (set_stream_quality quality_proc0 "test_stream" 150).2.stream_qualities
        "test_stream" = some (max 1 (min 100 150)) ∧
      (1 : Int) ≤ max 1 (min 100 150) ∧ (max 1 (min 100 150) : Int) ≤ 100) ∧
    set_stream_quality quality_proc0 "ghost" (-7) = (false, quality_proc0) :=
  ⟨(set_stream_quality_clamps quality_proc0 "test_stream" 150).1 (by decide),
   (set_stream_quality_clamps quality_proc0 "ghost" (-7)).2 (by decide)⟩

/-- C9 counterexample: a portrait frame of width 800 and height 1500 has
long edge 1500 > 1280 yet `_process_stream` pushes it unscaled, because
the code tests only `frame.shape[1]` (the width); moreover a portrait
frame of width 1300 and height 2600 IS resized, but to (1280, 2560),
whose long edge still exceeds 1280. -/
theorem downscale_long_edge_counterexample :
    1280 < max 1500 800 ∧ resize_for_queue 800 1500 = (800, 1500) ∧
    resize_for_queue 1300 2600 = (1280, 2560) ∧ 1280 < max 2560 1280 := by
  refine ⟨by norm_num, by decide, ?_, by norm_num⟩
  have : (2600 * 1280) / 1300 = 2560 := by norm_num
  simp [resize_for_queue, this]

/-- C9 amended: before encode, `_process_stream` downscales exactly the
frames whose WIDTH exceeds 1280, to width 1280 and height
`int(h * 1280 / w)` (which never grows); frames with width at most 1280
are pushed unscaled, regardless of their height.  The long-edge cap of the
claim is implemented only in `AIProcessor.preprocess_frame`, which does
bound both output dimensions by 1280. -/
theorem downscale_width_cap (w h : Nat) :
    (1280 < w →
      resize_for_queue w h = (1280, h * 1280 / w) ∧ h * 1280 / w ≤ h) ∧
    (w ≤ 1280 → resize_for_queue w h = (w, h)) ∧
    (1280 < max h w →
      (preprocess_frame w h).1 ≤ 1280 ∧ (preprocess_frame w h).2 ≤ 1280) := by
  refine ⟨?_, ?_, ?_⟩
  · intro hw
    refine ⟨by simp [resize_for_queue, hw], ?_⟩
    calc h * 1280 / w ≤ h * w / w :=
          Nat.div_le_div_right (Nat.mul_le_mul_left h (le_of_lt hw))
      _ = h := Nat.mul_div_cancel h (by omega)
  · intro hw
    simp [resize_for_queue]
    omega
  · intro hm
    have hM : 0 < max h w := by omega
    constructor
    · simp only [preprocess_frame, if_pos hm]
      calc w * 1280 / max h w ≤ max h w * 1280 / max h w :=
            Nat.div_le_div_right (Nat.mul_le_mul_right 1280 (le_max_right h w))
        _ = 1280 := Nat.mul_div_cancel_left 1280 hM
    · simp only [preprocess_frame, if_pos hm]
      calc h * 1280 / max h w ≤ max h w * 1280 / max h w :=
            Nat.div_le_div_right (Nat.mul_le_mul_right 1280 (le_max_left h w))
        _ = 1280 := Nat.mul_div_cancel_left 1280 hM

/-- Witness for `downscale_width_cap`: a 1920-wide frame is resized to
1280 x 720, a 640-wide frame passes through, and the AI preprocessing of
the 800 x 1500 portrait frame is bounded by 1280. -/
theorem downscale_width_cap_witness :
    (resize_for_queue 1920 1080 = (1280, 1080 * 1280 / 1920) ∧
      1080 * 1280 / 1920 ≤ 1080) ∧
    resize_for_queue 640 480 = (640, 480) ∧
    ((preprocess_frame 800 1500).1 ≤ 1280 ∧ (preprocess_frame 800 1500).2 ≤ 1280) :=
  ⟨(downscale_width_cap 1920 1080).1 (by norm_num),
   (downscale_width_cap 640 480).2.1 (by norm_num),
   (downscale_width_cap 800 1500).2.2 (by norm_num)⟩

/-- C3 counterexample: after `add_stream("cam1", ...)` succeeds, a second
`add_stream` with the same id returns True (reported success for a
duplicate id, with the new URL silently ignored); and an `add_stream`
whose initial capture open fails returns False but HAS changed the
registry state (the URL, lock, queue and consumer set for the id are
left behind). -/
theorem add_stream_duplicate_counterexample :
    add_stream cam1_proc "cam1" "rtsp://other" true = (true, cam1_proc) ∧
    (add_stream init_proc "cam1" "rtsp://cam" false).1 = false ∧
    (add_stream init_proc "cam1" "rtsp://cam" false).2 ≠ init_proc ∧
    lookupA (add_stream init_proc "cam1" "rtsp://cam" false).2.stream_urls
      "cam1" = some "rtsp://cam" := by
  refine ⟨by decide, by decide, by decide, by decide⟩

/-- C3 amended: `add_stream` returns True with NO state change when the id
is already present (a duplicate is reported as success, never re-opened);
when the id is new and the initial capture open fails it returns False and
registers no stream entry, but it has already stored the URL, created the
lock, the empty capacity-2 queue and the empty consumer set for the id,
and those survive the failure. -/
theorem add_stream_failure_behavior (p : Proc) (stream_id rtsp_url : String)
    (openOk : Bool) :
    (hasK p.streams stream_id = true →
      add_stream p stream_id rtsp_url openOk = (true, p)) ∧
    (hasK p.streams stream_id = false → openOk = false →
      (add_stream p stream_id rtsp_url openOk).1 = false ∧
      hasK (add_stream p stream_id rtsp_url openOk).2.streams stream_id = false ∧
      lookupA (add_stream p stream_id rtsp_url openOk).2.stream_urls stream_id
        = some rtsp_url ∧
      stream_id ∈ (add_stream p stream_id rtsp_url openOk).2.frame_locks ∧
      lookupA (add_stream p stream_id rtsp_url openOk).2.frame_queues stream_id
        = some [] ∧
      lookupA (add_stream p stream_id rtsp_url openOk).2.active_connections
        stream_id = some []) := by
  constructor
  · intro hmem
    simp [add_stream, hmem]
  · intro hmem hopen
    subst hopen
    have hm2 : (lookupA p.streams stream_id).isSome = false := by
      simpa [hasK] using hmem
    refine ⟨?_, ?_, ?_, ?_, ?_, ?_⟩ <;>
      simp [add_stream, hasK, hm2, lookupA_insertA_self, mem_insertK_self]

/-- Witness for `add_stream_failure_behavior`: both branches at concrete
states. -/
theorem add_stream_failure_behavior_witness :
    add_stream cam1_proc "cam1" "rtsp://other" true = (true, cam1_proc) ∧
    ((add_stream init_proc "cam2" "rtsp://b" false).1 = false ∧
      hasK (add_stream init_proc "cam2" "rtsp://b" false).2.streams "cam2" = false ∧
      lookupA (add_stream init_proc "cam2" "rtsp://b" false).2.stream_urls "cam2"
        = some "rtsp://b" ∧
      "cam2" ∈ (add_stream init_proc "cam2" "rtsp://b" false).2.frame_locks ∧
      lookupA (add_stream init_proc "cam2" "rtsp://b" false).2.frame_queues "cam2"
        = some [] ∧
      lookupA (add_stream init_proc "cam2" "rtsp://b" false).2.active_connections
        "cam2" = some []) :=
  ⟨(add_stream_failure_behavior cam1_proc "cam1" "rtsp://other" true).1 (by decide),
   (add_stream_failure_behavior init_proc "cam2" "rtsp://b" false).2
     (by decide) rfl⟩

/-- C4 counterexample: `remove_stream` on an id that is not present
returns True (and the HTTP layer therefore reports success, never 404),
refuting that removal of an unknown id fails. -/
theorem remove_stream_absent_counterexample :
    remove_stream init_proc "ghost" = (true, init_proc) := by decide

/-- C4 amended: `remove_stream` returns True whether or not the id is
present (its except-branch is the only False path); it always leaves the
id absent from the stream map, frame cache, locks, threads, URLs, queues
and consumer sets, and releases the capture when one was present; when the
id is absent from every per-stream map the call is a pure no-op that still
reports success, so the endpoint's 404 never fires. -/
theorem remove_stream_always_true (p : Proc) (stream_id : String) :
    (remove_stream p stream_id).1 = true ∧
    hasK (remove_stream p stream_id).2.streams stream_id = false ∧
    lookupA (remove_stream p stream_id).2.latest_frames stream_id = none ∧
    stream_id ∉ (remove_stream p stream_id).2.frame_locks ∧
    stream_id ∉ (remove_stream p stream_id).2.processing_threads ∧
    lookupA (remove_stream p stream_id).2.stream_urls stream_id = none ∧
    lookupA (remove_stream p stream_id).2.frame_queues stream_id = none ∧
    lookupA (remove_stream p stream_id).2.active_connections stream_id = none ∧
    (∀ cap, lookupA p.streams stream_id = some cap →
      cap ∈ (remove_stream p stream_id).2.released) ∧
    (lookupA p.streams stream_id = none →
      lookupA p.latest_frames stream_id = none →
      stream_id ∉ p.frame_locks →
      stream_id ∉ p.processing_threads →
      lookupA p.stream_urls stream_id = none →
      lookupA p.frame_queues stream_id = none →
      lookupA p.active_connections stream_id = none →
      (remove_stream p stream_id).2 = p) := by
  refine ⟨rfl, ?_, ?_, ?_, ?_, ?_, ?_, ?_, ?_, ?_⟩
  · cases hs : lookupA p.streams stream_id <;>
      simp [remove_stream, hs, hasK, lookupA_eraseA_self]
  · cases hs : lookupA p.streams stream_id <;>
      simp [remove_stream, hs, lookupA_eraseA_self]
  · cases hs : lookupA p.streams stream_id <;>
      simp only [remove_stream, hs] <;> exact not_mem_filter_ne_self _ _
  · cases hs : lookupA p.streams stream_id <;>
      simp only [remove_stream, hs] <;> exact not_mem_filter_ne_self _ _
  · cases hs : lookupA p.streams stream_id <;>
      simp [remove_stream, hs, lookupA_eraseA_self]
  · cases hs : lookupA p.streams stream_id <;>
      simp [remove_stream, hs, lookupA_eraseA_self]
  · cases hs : lookupA p.streams stream_id <;>
      simp [remove_stream, hs, lookupA_eraseA_self]
  · intro cap hs
    simp [remove_stream, hs]
  · intro h1 h2 h3 h4 h5 h6 h7
    simp only [remove_stream, h1]
    rw [eraseA_of_lookupA_none _ _ h2, filter_ne_of_not_mem _ _ h3,
      filter_ne_of_not_mem _ _ h4, eraseA_of_lookupA_none _ _ h5,
      eraseA_of_lookupA_none _ _ h6, eraseA_of_lookupA_none _ _ h7]

/-- C5 counterexample: on `cam1_proc` (URL stored), the optimized
variant's `_reconnect_stream` reports success as soon as the reopen
succeeds, even in an environment where a trial read on the new capture
would fail (`readOk = false`) — it performs no trial read at all. -/
theorem reconnect_no_trial_read_counterexample :
    (reconnect_stream cam1_proc "cam1" true false).1 = true := by decide

/-- C5 amended: the enhanced variant's `_reconnect_stream` reports success
exactly when the URL is stored, the reopen succeeds AND the trial frame
read succeeds, and on any failure it leaves the stream map unchanged (no
transition back to Streaming); the optimized variant's `_reconnect_stream`
reports success exactly when the URL is stored and the reopen succeeds,
performing no trial read. -/
theorem reconnect_success_characterization :
    (∀ (p : EnhancedProc) (stream_id : String) (openOk readOk : Bool),
      ((enhanced_reconnect_stream p stream_id openOk readOk).1 = true ↔
        (lookupA p.stream_urls stream_id).isSome = true ∧
          openOk = true ∧ readOk = true) ∧
      ((enhanced_reconnect_stream p stream_id openOk readOk).1 = false →
        (enhanced_reconnect_stream p stream_id openOk readOk).2.streams
          = p.streams)) ∧
    (∀ (p : Proc) (stream_id : String) (openOk readOk : Bool),
      ((reconnect_stream p stream_id openOk readOk).1 = true ↔
        (lookupA p.stream_urls stream_id).isSome = true ∧ openOk = true)) := by
  constructor
  · intro p stream_id openOk readOk
    cases hu : lookupA p.stream_urls stream_id with
    | none =>
        constructor
        · simp [enhanced_reconnect_stream, hu]
        · intro _
          simp [enhanced_reconnect_stream, hu]
    | some u =>
        cases hs : lookupA p.streams stream_id <;>
          cases openOk <;> cases readOk <;>
          simp [enhanced_reconnect_stream, hu, hs]
  · intro p stream_id openOk readOk
    cases hu : lookupA p.stream_urls stream_id with
    | none => simp [reconnect_stream, hu]
    | some u =>
        cases hs : lookupA p.streams stream_id <;>
          cases openOk <;>
          simp [reconnect_stream, hu, hs]

/-- Witness for `reconnect_success_characterization`: concrete runs of
both variants. -/
theorem reconnect_success_characterization_witness :
    ((enhanced_reconnect_stream
        { stream_urls := [("cam1", "rtsp://cam")] } "cam1" true false).1 = false →
      (enhanced_reconnect_stream
        { stream_urls := [("cam1", "rtsp://cam")] } "cam1" true false).2.streams
        = ([] : List (String × Nat))) ∧
    ((enhanced_reconnect_stream
        { stream_urls := [("cam1", "rtsp://cam")] } "cam1" true true).1 = true ↔
      (lookupA ([("cam1", "rtsp://cam")] : List (String × String))
        "cam1").isSome = true ∧ true = true ∧ true = true) ∧
    ((reconnect_stream cam1_proc "cam1" true false).1 = true ↔
      (lookupA cam1_proc.stream_urls "cam1").isSome = true ∧ true = true) :=
  ⟨(reconnect_success_characterization.1
      { stream_urls := [("cam1", "rtsp://cam")] } "cam1" true false).2,
   (reconnect_success_characterization.1
      { stream_urls := [("cam1", "rtsp://cam")] } "cam1" true true).1,
   reconnect_success_characterization.2 cam1_proc "cam1" true false⟩

/-- C1: after each successful frame read, the worker publishes a copy of
the frame; `get_latest_frame` then returns an address holding pixel data
equal to the frame just read, and that address is a fresh defensive copy:
overwriting it does not change what the cache subsequently serves.  For an
id with no lock (unknown stream) or no cached frame yet, `get_latest_frame`
returns `none`. -/
theorem frame_cache_fresh_copy :
    (∀ (p : Proc) (h : Heap) (stream_id : String) (a : Nat) (d : FrameData)
        (p2 : Proc) (h2 : Heap),
      heap_read h a = some d →
      process_frame_success p h stream_id a = some (p2, h2) →
      ∃ a2 h3, get_latest_frame p2 h2 stream_id = (some a2, h3) ∧
        heap_read h3 a2 = some d ∧
        ∀ d2, get_latest_frame_data p2 (heap_write h3 a2 d2) stream_id
          = some d) ∧
    (∀ (p : Proc) (h : Heap) (stream_id : String),
      stream_id ∉ p.frame_locks → get_latest_frame p h stream_id = (none, h)) ∧
    (∀ (p : Proc) (h : Heap) (stream_id : String),
      lookupA p.latest_frames stream_id = none →
      get_latest_frame p h stream_id = (none, h)) := by
  refine ⟨?_, ?_, ?_⟩
  · intro p h stream_id a d p2 h2 hread hstep
    by_cases hlock : stream_id ∈ p.frame_locks
    · have hcomp : process_frame_success p h stream_id a =
          some
            ({ p with
               consecutive_failures := insertA p.consecutive_failures stream_id 0
               latest_frames := insertA p.latest_frames stream_id h.length },
             h ++ [d]) := by
        simp [process_frame_success, hlock, hread, heap_alloc]
      rw [hcomp] at hstep
      simp only [Option.some.injEq, Prod.mk.injEq] at hstep
      obtain ⟨hp2, hh2⟩ := hstep
      subst hp2
      subst hh2
      refine ⟨(h ++ [d]).length, (h ++ [d]) ++ [d], ?_, ?_, ?_⟩
      · simp [get_latest_frame, hlock, lookupA_insertA_self,
          heap_read_append_self, heap_alloc]
      · exact heap_read_append_self (h ++ [d]) d
      · intro d2
        have hr : heap_read
            (heap_write (h ++ [d, d]) (h.length + 1) d2) h.length
            = some d := by
          have e1 : h ++ [d, d] = (h ++ [d]) ++ [d] := by simp
          have e2 : h.length + 1 = (h ++ [d]).length := by simp
          rw [e1, e2, heap_read_write_ne _ _ _ _ (by simp),
            heap_read_append_old _ _ _ (by simp), heap_read_append_self]
        simp [get_latest_frame_data, get_latest_frame, hlock,
          lookupA_insertA_self, hr, heap_alloc, heap_read_append_self]
    · simp [process_frame_success, hlock] at hstep
  · intro p h stream_id hlock
    simp [get_latest_frame, hlock]
  · intro p h stream_id hframe
    by_cases hlock : stream_id ∈ p.frame_locks <;>
      simp [get_latest_frame, hlock, hframe]

/-- Witness for `frame_cache_fresh_copy`: a concrete one-stream state with
one decoded frame on the heap. -/
theorem frame_cache_fresh_copy_witness :
    heap_read [[5, 6]] 0 = some [5, 6] ∧
    process_frame_success { init_proc with frame_locks := ["cam1"] } [[5, 6]]
        "cam1" 0 =
      some
        ({ init_proc with
           frame_locks := ["cam1"]
           consecutive_failures := [("cam1", 0)]
           latest_frames := [("cam1", 1)] },
         [[5, 6], [5, 6]]) ∧
    (∃ a2 h3,
      get_latest_frame
        { init_proc with
          frame_locks := ["cam1"]
          consecutive_failures := [("cam1", 0)]
          latest_frames := [("cam1", 1)] }
        [[5, 6], [5, 6]] "cam1" = (some a2, h3) ∧
      heap_read h3 a2 = some [5, 6] ∧
      ∀ d2, get_latest_frame_data
        { init_proc with
          frame_locks := ["cam1"]
          consecutive_failures := [("cam1", 0)]
          latest_frames := [("cam1", 1)] }
        (heap_write h3 a2 d2) "cam1" = some [5, 6]) :=
  ⟨by decide, by decide,
   frame_cache_fresh_copy.1 { init_proc with frame_locks := ["cam1"] }
     [[5, 6]] "cam1" 0 [5, 6] _ _ (by decide) (by decide)⟩

/-- C6: the snapshot endpoint returns a 404 `HTTPException` exactly when
`get_latest_frame` yields nothing — unknown id (no lock), id with no
cached frame yet, or any state whose cache read is absent — and otherwise
returns the cached latest frame re-encoded at the requested quality, or at
the processor default quality (40 on a fresh processor) when none is
requested; an empty-but-successful response is impossible. -/
theorem snapshot_endpoint_behavior (p : Proc) (h : Heap) (stream_id : String)
    (quality : Option Int) (imencode : FrameData → Int → ByteBuf) :
    (get_latest_frame_data p h stream_id = none →
      get_stream_frame p h stream_id quality imencode =
        FrameResponse.notFound404 "Stream not found or no frame available") ∧
    (stream_id ∉ p.frame_locks →
      get_stream_frame p h stream_id quality imencode =
        FrameResponse.notFound404 "Stream not found or no frame available") ∧
    (lookupA p.latest_frames stream_id = none →
      get_stream_frame p h stream_id quality imencode =
        FrameResponse.notFound404 "Stream not found or no frame available") ∧
    (∀ d, get_latest_frame_data p h stream_id = some d →
      get_stream_frame p h stream_id quality imencode =
        FrameResponse.jpegResponse
          (imencode d
            (match quality with | some q => q | none => p.jpeg_quality))) ∧
    init_proc.jpeg_quality = 40 := by
  refine ⟨?_, ?_, ?_, ?_, rfl⟩
  · intro hnone
    simp [get_stream_frame, hnone]
  · intro hlock
    have hnone : get_latest_frame_data p h stream_id = none := by
      simp [get_latest_frame_data, get_latest_frame, hlock]
    simp [get_stream_frame, hnone]
  · intro hframe
    have hnone : get_latest_frame_data p h stream_id = none := by
      by_cases hlock : stream_id ∈ p.frame_locks <;>
        simp [get_latest_frame_data, get_latest_frame, hlock, hframe]
    simp [get_stream_frame, hnone]
  · intro d hd
    simp [get_stream_frame, hd]

/-- Witness for `snapshot_endpoint_behavior`: a request against the empty
registry is a 404, and a request against a cached frame returns the
encoded bytes at the default quality 40. -/
theorem snapshot_endpoint_behavior_witness :
    get_stream_frame init_proc [] "ghost" none (fun d _ => d) =
      FrameResponse.notFound404 "Stream not found or no frame available" ∧
    get_stream_frame
      { init_proc with frame_locks := ["cam1"], latest_frames := [("cam1", 0)] }
      [[7]] "cam1" none (fun d _ => d) = FrameResponse.jpegResponse [7] :=
  ⟨(snapshot_endpoint_behavior init_proc [] "ghost" none (fun d _ => d)).2.1
     (by decide),
   (snapshot_endpoint_behavior
      { init_proc with frame_locks := ["cam1"], latest_frames := [("cam1", 0)] }
      [[7]] "cam1" none (fun d _ => d)).2.2.2.1 [7] (by decide)⟩

/-- C7 (code bug): one loop iteration of the push-socket handler.  With
the consumer DISCONNECTED and the stream still registered, the send raises
and is swallowed by the blanket inner exception handler, so the loop does
NOT terminate (and the popped frame is lost); the loop forwards the popped
bytes when connected, sends a heartbeat on an empty-queue timeout, and
terminates when the stream has been removed from the registry. -/
theorem ws_disconnect_loop_continues :
    (ws_stream_iteration cam1_proc_queued "cam1" false).2.1 = false ∧
    (ws_stream_iteration cam1_proc_queued "cam1" false).1 =
      WsOutcome.sendFailed ∧
    lookupA (ws_stream_iteration cam1_proc_queued "cam1" false).2.2.frame_queues
      "cam1" = some [] ∧
    (ws_stream_iteration cam1_proc_queued "cam1" true).1 =
      WsOutcome.forwarded [9, 9] ∧
    (ws_stream_iteration cam1_proc "cam1" true).1 = WsOutcome.heartbeat ∧
    (ws_stream_iteration (remove_stream cam1_proc_queued "cam1").2 "cam1"
      false).2.1 = true := by
  refine ⟨by decide, by decide, by decide, by decide, by decide, by decide⟩

/-- C8: on every exit path of the push-socket handler the consumer is
absent from the stream's consumer set afterwards: the early path never
registers it, and every path through the loop — normal break, disconnect,
error, or any interleaving with concurrent stream removals — ends in the
`finally` unregister. -/
theorem ws_unregister_on_exit (p : Proc) (stream_id : String) (ws : Nat)
    (fuel : Nat) (ticks : List WsTick)
    (hws : ws ∉ consumer_set p stream_id) :
    ws ∉ consumer_set (websocket_stream_handler p stream_id ws fuel ticks)
      stream_id := by
  simp only [websocket_stream_handler]
  split
  · exact hws
  · exact ws_not_mem_unregister _ _ _

/-- Witness for `ws_unregister_on_exit`: consumer 7 connects to
`cam1_proc_queued`, survives one delivery tick and a concurrent stream
removal, and is not registered afterwards. -/
theorem ws_unregister_on_exit_witness :
    (7 : Nat) ∉ consumer_set cam1_proc_queued "cam1" ∧
    (7 : Nat) ∉ consumer_set
      (websocket_stream_handler cam1_proc_queued "cam1" 7 3
        [⟨false, true⟩, ⟨true, true⟩]) "cam1" :=
  ⟨by decide,
   ws_unregister_on_exit cam1_proc_queued "cam1" 7 3
     [⟨false, true⟩, ⟨true, true⟩] (by decide)⟩

/-- Witness for `remove_stream_always_true`: removal of the present stream
of `cam1_proc` releases its capture handle 0, and removal of an absent id
from the empty registry is a successful no-op. -/
theorem remove_stream_always_true_witness :
    (0 : Nat) ∈ (remove_stream cam1_proc "cam1").2.released ∧
    (remove_stream init_proc "ghost2").2 = init_proc :=
  ⟨(remove_stream_always_true cam1_proc "cam1").2.2.2.2.2.2.2.2.1 0 (by decide),
   (remove_stream_always_true init_proc "ghost2").2.2.2.2.2.2.2.2.2
     (by decide) (by decide) (by decide) (by decide) (by decide) (by decide)
     (by decide)⟩






